import Mathlib

/-!
Verification of the `git-cc` conventional-commit assistant.

The development embeds the message model and the interactive flow of
`src/lib.rs` shallowly: the pure formatting function becomes a Lean
function on a `Message` structure; the interactive flow becomes a pure
function of the collaborator responses (selector indices, prompt texts,
editor outcome, behaviour of the spawned `git` process), returning the
list of commit invocations it performed together with the way the
process terminates.
-/

namespace GitCc

/-- The five collected commit-message fields (struct `Message` in `src/lib.rs`). -/
structure Message where
  commit_type : String
  scope : String
  description : String
  body : String
  breaking_change : String
deriving Repr, DecidableEq

/-- Embedding of `Message::format` from `src/lib.rs`: builds the commit text by successive
`push_str` calls; `scope`, `body` and `breaking_change` are appended only when
their length is non-zero. -/
def Message.format (self : Message) : String :=
  let message : String := ""
  let message := message ++ self.commit_type
  let message := if self.scope.length ≠ 0
    then message ++ ("(" ++ self.scope ++ ")") else message
  let message := message ++ ": "
  let message := message ++ self.description
  let message := if self.body.length ≠ 0
    then (message ++ "\n\n") ++ self.body else message
  let message := if self.breaking_change.length ≠ 0
    then (message ++ "\n\n") ++ ("BREAKING CHANGE: " ++ self.breaking_change)
    else message
  message

/-- Spec-side rendering of the optional scope section: `(scope)` when
present, nothing when the field is the empty string. -/
def scopePart (m : Message) : String :=
  if m.scope = "" then "" else "(" ++ m.scope ++ ")"

/-- Spec-side rendering of the optional body section: a blank line then the
body when present, nothing when the field is the empty string. -/
def bodyPart (m : Message) : String :=
  if m.body = "" then "" else "\n\n" ++ m.body

/-- Spec-side rendering of the optional breaking-change footer: a blank line
then `BREAKING CHANGE: ` and the note when present, nothing when the field is
the empty string. -/
def breakingPart (m : Message) : String :=
  if m.breaking_change = "" then "" else "\n\n" ++ ("BREAKING CHANGE: " ++ m.breaking_change)

/-- The output format exactly as the specification words it: commit type,
optional `(scope)`, the literal `": "`, the description, then the optional
body and breaking-change sections each preceded by a blank line. -/
def formatSpec (m : Message) : String :=
  m.commit_type ++ scopePart m ++ ": " ++ m.description ++ bodyPart m ++ breakingPart m

theorem string_length_ne_zero_iff (s : String) : s.length ≠ 0 ↔ s ≠ "" := by
  constructor
  · intro h he
    exact h (by simp [he])
  · intro h hl
    apply h
    cases s with
    | mk data =>
      cases data with
      | nil => rfl
      | cons c cs => simp [String.length] at hl

theorem format_as_parts (m : Message) : m.format = formatSpec m := by
  unfold Message.format formatSpec scopePart bodyPart breakingPart
  by_cases hs : m.scope = "" <;> by_cases hb : m.body = "" <;>
    by_cases hc : m.breaking_change = "" <;>
      simp [hs, hb, hc, string_length_ne_zero_iff, String.empty_append,
        String.append_empty, String.append_assoc]

/-- The fixed commit-type list offered by `select_commit_type`
(`let selections = vec![...]` in `src/lib.rs`). -/
def commitTypes : List String :=
  ["feat", "fix", "build", "chore", "ci", "docs", "perf", "refactor", "revert",
   "style", "test"]

/-- The `.default(0)` argument of the commit-type `FuzzySelect`. -/
def commitTypeDefault : Nat := 0

/-- The three options of the final `FuzzySelect` in `run`. -/
def decisionItems : List String := ["Commit with it", "Continue with editor", "Cancel"]

/-- The `.default(0)` argument of the final `FuzzySelect`. -/
def decisionDefault : Nat := 0

/-- One blocking interaction with the terminal-prompt collaborator, tagged by
which of the five collection prompts it is. -/
inductive PromptEvent where
  | selectCommitType
  | askScope
  | askDescription
  | askBody
  | askBreakingChange
deriving Repr, DecidableEq

/-- Embedding of `select_commit_type` from `src/lib.rs`: the selector collaborator returns
`selection`, and the function indexes `selections[selection]`.  `none` models
the Rust index panic on an out-of-range selection.  The second component is
the interaction the call performs. -/
def select_commit_type (selection : Nat) : Option String × PromptEvent :=
  (commitTypes[selection]?, .selectCommitType)

/-- Embedding of `write_scope` from `src/lib.rs`: a free-text prompt with
`allow_empty(true)`; returns the collaborator's text unchanged. -/
def write_scope (input : String) : String × PromptEvent :=
  (input, .askScope)

/-- Embedding of `write_description` from `src/lib.rs`: a free-text prompt (empty input is
re-prompted by the collaborator); returns the collaborator's text unchanged. -/
def write_description (input : String) : String × PromptEvent :=
  (input, .askDescription)

/-- Embedding of `write_body` from `src/lib.rs`: a free-text prompt with
`allow_empty(true)`; returns the collaborator's text unchanged. -/
def write_body (input : String) : String × PromptEvent :=
  (input, .askBody)

/-- Embedding of `write_breaking_change` from `src/lib.rs`: a free-text prompt with
`allow_empty(true)`; returns the collaborator's text unchanged. -/
def write_breaking_change (input : String) : String × PromptEvent :=
  (input, .askBreakingChange)

/-- The responses the five collection prompts would deliver. -/
structure PromptInputs where
  typeSelection : Nat
  scopeInput : String
  descriptionInput : String
  bodyInput : String
  breakingInput : String

/-- Result of `create_message`: the built `Message` (or `none` for the index
panic inside `select_commit_type`) and the prompt interactions performed, in
order. -/
structure Collected where
  message : Option Message
  trace : List PromptEvent
deriving Repr, DecidableEq

/-- Embedding of `create_message` from `src/lib.rs`: calls the five collectors in program
order and assembles the `Message` by field-name shorthand. -/
def create_message (inp : PromptInputs) : Collected :=
  match select_commit_type inp.typeSelection with
  | (none, e1) => { message := none, trace := [e1] }
  | (some commit_type, e1) =>
    let (scope, e2) := write_scope inp.scopeInput
    let (description, e3) := write_description inp.descriptionInput
    let (body, e4) := write_body inp.bodyInput
    let (breaking_change, e5) := write_breaking_change inp.breakingInput
    { message := some { commit_type, scope, description, body, breaking_change },
      trace := [e1, e2, e3, e4, e5] }

/-- Outcome of spawning `git commit -m <msg>`: the process could not be
started at all, or it ran and exited with the given status code. -/
inductive SpawnResult where
  | spawnError
  | exited (code : Nat)
deriving Repr, DecidableEq

/-- How the run terminates: `normal` is an ordinary return (process exit 0),
`exit n` is `process::exit(n)`, `panic msg` is a Rust panic (abnormal,
non-zero process exit). -/
inductive Outcome where
  | normal
  | exit (code : Nat)
  | panic (msg : String)
deriving Repr, DecidableEq

/-- Modelled from the spec: the binary entry point is not under `src/` (only
`lib.rs` is); per the spec's process-level surface it just runs the
interactive flow, so a normal return of `run` exits with status 0, a
`process::exit(n)` exits with `n`, and a Rust panic exits abnormally with the
standard non-zero status 101. -/
def exitCode : Outcome → Nat
  | .normal => 0
  | .exit n => n
  | .panic _ => 101

/-- Embedding of `commit` from `src/lib.rs`: spawns `git commit -m <message>` and calls
`.status().expect("commit failed")`.  The `expect` panics only when the
command could not be invoked; a status from a process that did run is
returned by `status()` and then discarded. -/
def commit (gitSpawn : String → SpawnResult) (message : String) : Outcome :=
  match gitSpawn message with
  | .spawnError => .panic "commit failed"
  | .exited _ => .normal

/-- The collaborator responses one execution of `run` consumes. -/
structure RunInput where
  prompts : PromptInputs
  decision : Nat
  editorResult : Option String
  gitSpawn : String → SpawnResult

/-- What one execution of `run` did: each message text passed to `commit`,
in order, and how the process terminates. -/
structure RunResult where
  commits : List String
  outcome : Outcome

/-- Embedding of `run` from `src/lib.rs`: builds and formats the message, asks the
three-way question, then matches on the selection: `0` commits the formatted
text, `1` opens the editor and commits the revised text or exits 1 when the
editor session is aborted, `2` exits 1, and anything else hits
`unreachable!()`. -/
def run (inp : RunInput) : RunResult :=
  match (create_message inp.prompts).message with
  | none => { commits := [], outcome := .panic "index out of bounds" }
  | some message =>
    let formatted_message := message.format
    match inp.decision with
    | 0 => { commits := [formatted_message],
             outcome := commit inp.gitSpawn formatted_message }
    | 1 =>
      match inp.editorResult with
      | some rv => { commits := [rv], outcome := commit inp.gitSpawn rv }
      | none => { commits := [], outcome := .exit 1 }
    | 2 => { commits := [], outcome := .exit 1 }
    | _ => { commits := [], outcome := .panic "internal error: entered unreachable code" }

/-- C1: for every `Message`, `format` produces exactly the commit type, then
`(scope)` when the scope is non-empty, then the literal `": "`, then the
description, then a blank line and the body when the body is non-empty, then
a blank line and `BREAKING CHANGE: ` plus the note when that field is
non-empty; and on the literal five-field example the result is the literal
string the spec gives. -/
theorem format_matches_spec (m : Message) :
    m.format = m.commit_type
        ++ (if m.scope = "" then "" else "(" ++ m.scope ++ ")")
        ++ ": " ++ m.description
        ++ (if m.body = "" then "" else "\n\n" ++ m.body)
        ++ (if m.breaking_change = "" then ""
            else "\n\n" ++ ("BREAKING CHANGE: " ++ m.breaking_change)) ∧
    (Message.mk "feat" "cli" "add api" "This is a body" "remove api").format
      = "feat(cli): add api\n\nThis is a body\n\nBREAKING CHANGE: remove api" := by
  refine ⟨?_, by decide⟩
  rw [format_as_parts]
  unfold formatSpec scopePart bodyPart breakingPart
  rfl

/-- C4: a field set to the empty string contributes nothing to `format`'s
output — an empty scope yields no parentheses, an empty body and an empty
breaking-change note yield no separator and no footer label — and when the
body is empty but the breaking-change note is not, exactly the single blank
line precedes `BREAKING CHANGE: `, independent of the body. -/
theorem format_omits_empty_fields (m : Message) :
    (m.scope = "" →
      m.format = m.commit_type ++ ": " ++ m.description ++ bodyPart m ++ breakingPart m) ∧
    (m.body = "" →
      m.format = m.commit_type ++ scopePart m ++ ": " ++ m.description ++ breakingPart m) ∧
    (m.breaking_change = "" →
      m.format = m.commit_type ++ scopePart m ++ ": " ++ m.description ++ bodyPart m) ∧
    (m.body = "" → m.breaking_change ≠ "" →
      m.format = m.commit_type ++ scopePart m ++ ": " ++ m.description
        ++ "\n\n" ++ ("BREAKING CHANGE: " ++ m.breaking_change)) := by
  rw [format_as_parts]
  unfold formatSpec
  refine ⟨fun hs => ?_, fun hb => ?_, fun hc => ?_, fun hb hc => ?_⟩
  · rw [scopePart, if_pos hs, String.append_empty]
  · rw [bodyPart, if_pos hb, String.append_empty]
  · rw [breakingPart, if_pos hc, String.append_empty]
  · rw [bodyPart, if_pos hb, String.append_empty, breakingPart, if_neg hc]
    simp [String.append_assoc]

/-- C4 witness: with scope `"cli"`, body empty and breaking change
`"remove api"`, the formatted text is the subject line followed by a single
blank line and the footer. -/
theorem format_omits_empty_fields_witness :
    (Message.mk "feat" "cli" "add api" "" "remove api").format
      = "feat(cli): add api\n\nBREAKING CHANGE: remove api" := by
  have h := (format_omits_empty_fields (Message.mk "feat" "cli" "add api" "" "remove api")).2.2.2
    rfl (by decide)
  rw [h]
  decide

/-- C6: `format` is a total, deterministic, pure function of the five field
values — it is defined on every `Message` (it always yields some string),
two messages with equal field values format to equal text, and re-formatting
the same value yields identical text. -/
theorem format_pure_total (m m' : Message) :
    (∃ out : String, m.format = out) ∧
    (m.commit_type = m'.commit_type → m.scope = m'.scope →
     m.description = m'.description → m.body = m'.body →
     m.breaking_change = m'.breaking_change → m.format = m'.format) ∧
    m.format = m.format := by
  refine ⟨⟨m.format, rfl⟩, fun h1 h2 h3 h4 h5 => ?_, rfl⟩
  cases m
  cases m'
  simp only at h1 h2 h3 h4 h5
  rw [h1, h2, h3, h4, h5]

/-- C6 witness: two separately written messages with the same five field
values format to the same text. -/
theorem format_pure_total_witness :
    (Message.mk "feat" "cli" "add api" "" "").format
      = (Message.mk "feat" "cli" "add api" "" "").format :=
  (format_pure_total (Message.mk "feat" "cli" "add api" "" "")
    (Message.mk "feat" "cli" "add api" "" "")).2.1 rfl rfl rfl rfl rfl

/-- C9: presence of the optional sections is decided solely by the field
being non-empty, with no trimming: any non-empty scope — including a lone
space — is rendered inside parentheses, only the exact empty string is
omitted, and the all-whitespace example renders the literal `( )`, a
whitespace body paragraph and a footer ending in a space. -/
theorem format_presence_by_emptiness_only (m : Message) :
    (m.scope ≠ "" →
      m.format = m.commit_type ++ ("(" ++ m.scope ++ ")") ++ ": " ++ m.description
        ++ bodyPart m ++ breakingPart m) ∧
    (m.scope = "" →
      m.format = m.commit_type ++ ": " ++ m.description ++ bodyPart m ++ breakingPart m) ∧
    (Message.mk "feat" " " "add api" " " " ").format
      = "feat( ): add api\n\n \n\nBREAKING CHANGE:  " := by
  refine ⟨fun hs => ?_, fun hs => ?_, by decide⟩
  · rw [format_as_parts]
    unfold formatSpec
    rw [scopePart, if_neg hs]
  · rw [format_as_parts]
    unfold formatSpec
    rw [scopePart, if_pos hs, String.append_empty]

/-- C9 witness: a scope consisting of a single space is treated as present
and rendered verbatim between the parentheses. -/
theorem format_presence_by_emptiness_only_witness :
    (Message.mk "feat" " " "add api" "" "").format
      = "feat" ++ ("(" ++ " " ++ ")") ++ ": " ++ "add api"
        ++ bodyPart (Message.mk "feat" " " "add api" "" "")
        ++ breakingPart (Message.mk "feat" " " "add api" "" "") :=
  (format_presence_by_emptiness_only (Message.mk "feat" " " "add api" "" "")).1 (by decide)

/-- C10: `format` embeds every field verbatim, with no validation or
escaping: a description containing a blank line formats identically to a
distinct message carrying the same text as a body, so the structural
delimiters can be forged, and a scope containing `)` yields
unbalanced-looking parentheses in the subject line. -/
theorem format_embeds_fields_verbatim :
    (Message.mk "feat" "" "add api\n\nThis is a body" "" "").format
      = (Message.mk "feat" "" "add api" "This is a body" "").format ∧
    Message.mk "feat" "" "add api\n\nThis is a body" "" ""
      ≠ Message.mk "feat" "" "add api" "This is a body" "" ∧
    (Message.mk "feat" "a)b" "add api" "" "").format = "feat(a)b): add api" := by
  refine ⟨by decide, by decide, by decide⟩

theorem create_message_in_range (inp : PromptInputs)
    (h : inp.typeSelection < commitTypes.length) :
    create_message inp =
      { message := some
          { commit_type := commitTypes.get ⟨inp.typeSelection, h⟩,
            scope := inp.scopeInput, description := inp.descriptionInput,
            body := inp.bodyInput, breaking_change := inp.breakingInput },
        trace := [.selectCommitType, .askScope, .askDescription, .askBody,
                  .askBreakingChange] } := by
  unfold create_message select_commit_type write_scope write_description
    write_body write_breaking_change
  rw [List.getElem?_eq_getElem h]
  rfl

/-- C5: the commit-type selection offers exactly the 11 entries feat, fix,
build, chore, ci, docs, perf, refactor, revert, style, test in that order
with default index 0 (feat), and for every in-range index the selected
commit type is exactly that entry of the list — hence always a member of the
fixed set. -/
theorem select_commit_type_from_fixed_list (i : Nat) (h : i < commitTypes.length) :
    commitTypes = ["feat", "fix", "build", "chore", "ci", "docs", "perf",
                   "refactor", "revert", "style", "test"] ∧
    commitTypes.length = 11 ∧
    commitTypeDefault = 0 ∧
    (select_commit_type commitTypeDefault).1 = some "feat" ∧
    (select_commit_type i).1 = some (commitTypes.get ⟨i, h⟩) ∧
    ∀ s, (select_commit_type i).1 = some s → s ∈ commitTypes := by
  refine ⟨rfl, rfl, rfl, rfl, ?_, ?_⟩
  · unfold select_commit_type
    rw [List.getElem?_eq_getElem h]
    rfl
  · intro s hs
    unfold select_commit_type at hs
    rw [List.getElem?_eq_getElem h] at hs
    cases Option.some.inj hs
    exact List.get_mem _ _ _

/-- C5 witness: index 7 is in range and selects `refactor`, a member of the
fixed list. -/
theorem select_commit_type_from_fixed_list_witness :
    (7 < commitTypes.length ∧ (select_commit_type 7).1 = some "refactor") ∧
    commitTypeDefault = 0 :=
  ⟨⟨by decide, ((select_commit_type_from_fixed_list 7 (by decide)).2.2.2.2.1).trans
      (by decide)⟩, rfl⟩

/-- C8: field collection performs exactly the five prompt interactions in the
fixed order commit type, scope, description, body, breaking change, and each
collected value is stored in the `Message` field of the same name. -/
theorem create_message_fixed_order (inp : PromptInputs)
    (h : inp.typeSelection < commitTypes.length) :
    (create_message inp).trace =
      [.selectCommitType, .askScope, .askDescription, .askBody, .askBreakingChange] ∧
    (create_message inp).trace.length = 5 ∧
    (create_message inp).message = some
      { commit_type := commitTypes.get ⟨inp.typeSelection, h⟩,
        scope := inp.scopeInput, description := inp.descriptionInput,
        body := inp.bodyInput, breaking_change := inp.breakingInput } := by
  rw [create_message_in_range inp h]
  exact ⟨rfl, rfl, rfl⟩

/-- C8 witness: on concrete prompt responses the trace is the five prompts in
order and the message carries the responses field by field. -/
theorem create_message_fixed_order_witness :
    (create_message ⟨1, "cli", "add api", "b", "bc"⟩).trace =
      [.selectCommitType, .askScope, .askDescription, .askBody, .askBreakingChange] ∧
    (create_message ⟨1, "cli", "add api", "b", "bc"⟩).message =
      some (Message.mk "fix" "cli" "add api" "b" "bc") := by
  have h := create_message_fixed_order ⟨1, "cli", "add api", "b", "bc"⟩ (by decide)
  exact ⟨h.1, h.2.2.trans (by decide)⟩

/-- A concrete set of prompt responses used in the concrete examples below:
commit type index 0 (feat), description `add api`, all optional fields empty. -/
def samplePrompts : PromptInputs :=
  { typeSelection := 0, scopeInput := "", descriptionInput := "add api",
    bodyInput := "", breakingInput := "" }

/-- A concrete run input: `samplePrompts`, the given decision index and
editor outcome, and a `git` that spawns and exits with the given status. -/
def sampleRun (decision : Nat) (editorResult : Option String) (gitExit : Nat) :
    RunInput :=
  { prompts := samplePrompts, decision := decision,
    editorResult := editorResult, gitSpawn := fun _ => .exited gitExit }

/-- A concrete run input like `sampleRun` but whose `git commit` command
cannot be spawned at all. -/
def sampleRunNoGit (decision : Nat) (editorResult : Option String) : RunInput :=
  { prompts := samplePrompts, decision := decision,
    editorResult := editorResult, gitSpawn := fun _ => .spawnError }

/-- C2: with an in-range commit-type selection, the final three-way decision
behaves as specified: selecting Cancel (2) never invokes `commit` and exits
non-zero; selecting Continue with editor (1) with an aborted editor session
never invokes `commit` and exits non-zero; selecting Continue with editor
when the editor returns revised text invokes `commit` with exactly that text;
and selecting Commit with it (0) invokes `commit` with exactly the formatted
text. -/
theorem run_decision_protocol (inp : RunInput)
    (h : inp.prompts.typeSelection < commitTypes.length) :
    (inp.decision = 2 →
      (run inp).commits = [] ∧ (run inp).outcome = .exit 1 ∧
      exitCode (run inp).outcome ≠ 0) ∧
    (inp.decision = 1 → inp.editorResult = none →
      (run inp).commits = [] ∧ (run inp).outcome = .exit 1 ∧
      exitCode (run inp).outcome ≠ 0) ∧
    (∀ rv, inp.decision = 1 → inp.editorResult = some rv →
      (run inp).commits = [rv]) ∧
    (inp.decision = 0 →
      ∀ msg, (create_message inp.prompts).message = some msg →
        (run inp).commits = [msg.format]) := by
  rcases hm : (create_message inp.prompts).message with _ | msg
  · rw [create_message_in_range inp.prompts h] at hm
    cases hm
  · refine ⟨fun h2 => ?_, fun h1 he => ?_, fun rv h1 he => ?_, fun h0 msg2 hmsg => ?_⟩
    · unfold run
      rw [hm, h2]
      refine ⟨rfl, rfl, ?_⟩
      show exitCode (Outcome.exit 1) ≠ 0
      decide
    · unfold run
      rw [hm, h1, he]
      refine ⟨rfl, rfl, ?_⟩
      show exitCode (Outcome.exit 1) ≠ 0
      decide
    · unfold run
      rw [hm, h1, he]
    · have hme : msg2 = msg := (Option.some.inj hmsg).symm
      rw [hme]
      unfold run
      rw [hm, h0]

/-- C2 witness: on a concrete input with Cancel selected, no commit is
invoked and the run exits with status 1. -/
theorem run_decision_protocol_witness :
    (run (sampleRun 2 none 0)).commits = [] ∧
    (run (sampleRun 2 none 0)).outcome = .exit 1 := by
  have h := (run_decision_protocol (sampleRun 2 none 0) (by decide)).1 rfl
  exact ⟨h.1, h.2.1⟩

/-- C3: the code ignores the exit status reported by the spawned
`git commit`.  When the user selects Commit with it and `git` runs but exits
with status 1 (a reported commit failure), `run` still returns normally and
the process exits 0 — contradicting the claim that a reported failure is
fatal with a non-zero exit.  Only a spawn failure (commit not invocable)
panics. -/
theorem run_ignores_git_exit_status :
    (run (sampleRun 0 none 1)).commits = ["feat: add api"] ∧
    (run (sampleRun 0 none 1)).outcome = .normal ∧
    exitCode (run (sampleRun 0 none 1)).outcome = 0 ∧
    (run (sampleRunNoGit 0 none)).outcome = .panic "commit failed" := by
  refine ⟨by decide, by decide, by decide, by decide⟩

/-- C7: with an in-range commit-type selection, a decision index outside the
3-item list hits the `unreachable!()` branch — a fatal panic that invokes no
commit — and under the precondition that the selector returns an index into
the 3-item list that panic never occurs. -/
theorem run_unreachable_on_bad_decision (inp : RunInput)
    (h : inp.prompts.typeSelection < commitTypes.length) :
    (decisionItems.length ≤ inp.decision →
      (run inp).commits = [] ∧
      (run inp).outcome = .panic "internal error: entered unreachable code") ∧
    (inp.decision < decisionItems.length →
      (run inp).outcome ≠ .panic "internal error: entered unreachable code") := by
  rcases hm : (create_message inp.prompts).message with _ | msg
  · rw [create_message_in_range inp.prompts h] at hm
    cases hm
  · constructor
    · intro hge
      obtain ⟨n, hd⟩ : ∃ n, inp.decision = n + 3 :=
        ⟨inp.decision - 3, by simp [decisionItems] at hge; omega⟩
      unfold run
      rw [hm, hd]
      exact ⟨rfl, rfl⟩
    · intro hlt
      have hd : inp.decision = 0 ∨ inp.decision = 1 ∨ inp.decision = 2 := by
        simp [decisionItems] at hlt; omega
      unfold run
      rw [hm]
      rcases hd with hd | hd | hd <;> rw [hd]
      · cases hg : inp.gitSpawn msg.format <;> simp [commit, hg]
      · cases he : inp.editorResult with
        | none => simp
        | some rv => cases hg : inp.gitSpawn rv <;> simp [commit, hg]
      · simp

/-- C7 witness: a decision index of 5 on a concrete input panics with the
unreachable-code message and invokes no commit, while index 2 does not. -/
theorem run_unreachable_on_bad_decision_witness :
    ((run (sampleRun 5 none 0)).outcome
        = .panic "internal error: entered unreachable code") ∧
    ((run (sampleRun 2 none 0)).outcome
        ≠ .panic "internal error: entered unreachable code") :=
  ⟨((run_unreachable_on_bad_decision (sampleRun 5 none 0) (by decide)).1
      (by decide)).2,
   (run_unreachable_on_bad_decision (sampleRun 2 none 0) (by decide)).2
      (by decide)⟩

end GitCc
